import Mathlib

/-!
Verification of uhub's `src/usermanager.c` (session registry, statistics
sampler and broadcast dispatcher of a small ADC hub).

This file gives a shallow embedding of the C code and proves the spec's
claims about it.  Machine-unsigned counters (`size_t`, `uint64_t`) are
modelled as `Nat`; every claim below only exercises in-range behaviour
(no wraparound), except where noted.  The linked-list container
(`list_create` / `list_append` / `list_remove` / `list_get_first` /
`list_get_next` / `list_clear` from uhub's containers module, which is not
part of the provided source) is modelled from the spec as an
insertion-ordered `List`, with `list_remove` erasing the first occurrence
and acting as a no-op on an absent element.
-/

namespace UHub

/-- Enumerated trust level of a session (`cred_none` is the sentinel that
marks a session as already being torn down). -/
inductive Credentials where
  | cred_none
  | cred_guest
  | cred_user
  | cred_operator
  | cred_admin
deriving DecidableEq, Repr

/-- Modelled from the spec: enumerated quit reason (normal, kicked,
banned, ...) set before removal; the enum itself lives in uhub.h, which is
not part of the provided source. -/
inductive QuitReason where
  | normal
  | kicked
  | banned
  | timeout
deriving DecidableEq, Repr

/-- The fields of `struct user` that `usermanager.c` reads or writes.
`logged_in` abstracts the external predicate `user_is_logged_in`;
`flag_user_list` abstracts the `flag_user_list` bit manipulated through
`user_flag_set` / `user_flag_unset`; `shared_size` / `shared_files` are
`limits.shared_size` / `limits.shared_files`. -/
structure User where
  sid : Nat
  cid : String
  nick : String
  credentials : Credentials
  shared_size : Nat
  shared_files : Nat
  quit_reason : QuitReason
  logged_in : Bool
  flag_user_list : Bool
  send_queue_size : Nat
deriving DecidableEq, Repr

/-- `struct user_manager`: the insertion-ordered membership list and the
derived aggregates.  `free_sid` is the SID-allocation counter. -/
structure UserManager where
  list : List User
  count : Nat
  count_peak : Nat
  free_sid : Nat
  shared_size : Nat
  shared_files : Nat
deriving DecidableEq, Repr

/-- `user_manager_init`: empty list, `free_sid = 1`, all counters zero
(the struct is allocated with `hub_malloc_zero`). -/
def user_manager_init : UserManager :=
  { list := [], count := 0, count_peak := 0, free_sid := 1,
    shared_size := 0, shared_files := 0 }

/-- `user_manager_add`: append to the list, bump `count`, raise
`count_peak` to `MAX(count, count_peak)`, add the session's declared
limits into the running totals. -/
def user_manager_add (um : UserManager) (u : User) : UserManager :=
  let c := um.count + 1
  { um with
    list := um.list ++ [u]
    count := c
    count_peak := max c um.count_peak
    shared_size := um.shared_size + u.shared_size
    shared_files := um.shared_files + u.shared_files }

/-- `user_manager_remove`: erase the session from the list (first
occurrence; no-op on the list if absent), decrement `count`, subtract the
session's declared limits from the totals.  The decrement and the
subtractions happen unconditionally, whether or not the session was in
the list. -/
def user_manager_remove (um : UserManager) (u : User) : UserManager :=
  { um with
    list := um.list.erase u
    count := um.count - 1
    shared_size := um.shared_size - u.shared_size
    shared_files := um.shared_files - u.shared_files }

/-- `user_manager_get_free_sid`: return `free_sid` and post-increment it.
The collision-scan / wraparound branch in the source is inside `#if 0`
and is not compiled, so the active code is just the post-increment. -/
def user_manager_get_free_sid (um : UserManager) : Nat × UserManager :=
  (um.free_sid, { um with free_sid := um.free_sid + 1 })

/-- `get_user_by_sid`: linear scan in insertion order for the first
session whose `id.sid` equals `sid`. -/
def get_user_by_sid (um : UserManager) (sid : Nat) : Option User :=
  um.list.find? (fun u => u.sid == sid)

/-- `get_user_by_cid`: linear scan in insertion order for the first
session whose `id.cid` compares equal (`strcmp == 0`) to `cid`. -/
def get_user_by_cid (um : UserManager) (cid : String) : Option User :=
  um.list.find? (fun u => u.cid == cid)

/-- `get_user_by_nick`: linear scan in insertion order for the first
session whose `id.nick` compares equal to `nick`. -/
def get_user_by_nick (um : UserManager) (nick : String) : Option User :=
  um.list.find? (fun u => u.nick == nick)

/-! ## Traces of add/remove operations (for the registry invariants) -/

/-- One registry-mutating operation. -/
inductive Op where
  | add (u : User)
  | remove (u : User)
deriving DecidableEq, Repr

/-- Apply one operation to a registry state. -/
def applyOp (um : UserManager) : Op → UserManager
  | .add u => user_manager_add um u
  | .remove u => user_manager_remove um u

/-- Apply a whole trace of operations. -/
def applyTrace (um : UserManager) : List Op → UserManager
  | [] => um
  | op :: ops => applyTrace (applyOp um op) ops

/-- A trace is valid from a given state when every `remove` targets a
session currently in the membership list. -/
def validTrace (um : UserManager) : List Op → Bool
  | [] => true
  | .add u :: ops => validTrace (user_manager_add um u) ops
  | .remove u :: ops =>
      um.list.contains u && validTrace (user_manager_remove um u) ops

/-- The `count` values observed after each operation of a trace. -/
def countsAfter (um : UserManager) : List Op → List Nat
  | [] => []
  | op :: ops => (applyOp um op).count :: countsAfter (applyOp um op) ops

/-- Sum of `limits.shared_size` over a session list. -/
def sharedSizeSum (l : List User) : Nat := (l.map User.shared_size).sum

/-- Sum of `limits.shared_files` over a session list. -/
def sharedFilesSum (l : List User) : Nat := (l.map User.shared_files).sum

/-! ## Statistics sampler (`user_manager_update_stats`) -/

/-- Modelled from the spec: `TIMEOUT_STATS`, the fixed sampling interval
in seconds, is defined in uhub.h (not in the provided source); the spec's
sample scenario uses an interval of 5 seconds. -/
def TIMEOUT_STATS : Nat := 5

/-- One side of `struct net_statistics`: cumulative transmit/receive byte
counters of the external collector. -/
structure NetStatistics where
  tx : Nat
  rx : Nat
deriving DecidableEq, Repr

/-- The `hub->stats` fields written by `user_manager_update_stats`:
`net_tx` / `net_rx` are the per-interval rates, the `_peak` fields the
historical maxima, the `_total` fields the cumulative counters. -/
structure HubStats where
  net_tx : Nat
  net_rx : Nat
  net_tx_peak : Nat
  net_rx_peak : Nat
  net_tx_total : Nat
  net_rx_total : Nat
deriving DecidableEq, Repr

/-- `user_manager_update_stats`, line by line.  `intermediate` and
`total` are the two counter blocks handed out by `net_stats_get`; the
returned pair is the new `hub->stats` together with the collector state
after `net_stats_reset` (which zeroes the interval counters and keeps
the cumulative ones).  Note the source assigns `net_tx_peak` twice: first
`MAX(net_tx, net_tx_peak)`, then — overwriting it — `MAX(net_rx,
net_rx_peak)`; `net_rx_peak` itself is never written. -/
def user_manager_update_stats (stats : HubStats)
    (intermediate total : NetStatistics) :
    HubStats × NetStatistics × NetStatistics :=
  let s1 := { stats with net_tx := intermediate.tx / TIMEOUT_STATS }
  let s2 := { s1 with net_rx := intermediate.rx / TIMEOUT_STATS }
  let s3 := { s2 with net_tx_peak := max s2.net_tx s2.net_tx_peak }
  let s4 := { s3 with net_tx_peak := max s3.net_rx s3.net_rx_peak }
  let s5 := { s4 with net_tx_total := total.tx, net_rx_total := total.rx }
  (s5, ⟨0, 0⟩, total)

/-! ## Broadcast dispatcher (`send_user_list`, `send_quit_message`) -/

/-- `user_flag_set(target, flag_user_list)` (external helper): set the
"receiving list" flag. -/
def user_flag_set (u : User) : User := { u with flag_user_list := true }

/-- `user_flag_unset(target, flag_user_list)` (external helper): clear
the "receiving list" flag. -/
def user_flag_unset (u : User) : User := { u with flag_user_list := false }

/-- Modelled from the spec: `user_is_logged_in` is an external predicate
("in a logged-in state"); abstracted as a boolean field of the session. -/
def user_is_logged_in (u : User) : Bool := u.logged_in

/-- A delivery oracle abstracting `route_to_user(target, user->info)`:
given the target's current outbound-queue size and the session whose
identity payload is being delivered, it reports success/failure (C
nonzero/zero) and the target's queue size afterwards. -/
def RouteOracle : Type := Nat → User → Bool × Nat

/-- The delivery loop of `send_user_list`: walk the membership list in
insertion order; for each logged-in session attempt delivery and `break`
on the first failure.  Returns the C `ret` value (initialized to 1 =
`true`), the list of sessions a delivery was attempted for, and the
target's final queue size. -/
def send_list_loop (route : RouteOracle) :
    List User → Nat → Bool × List User × Nat
  | [], q => (true, [], q)
  | u :: rest, q =>
    if user_is_logged_in u then
      let r := route q u
      if r.1 then
        let k := send_list_loop route rest r.2
        (k.1, u :: k.2.1, k.2.2)
      else
        (false, [u], r.2)
    else
      send_list_loop route rest q

/-- `send_user_list(target)`: set the `flag_user_list` flag, run the
delivery loop over the membership list, then clear the flag again iff
`target->send_queue_size` is zero.  Returns `ret`, the final target
state, and the list of attempted deliveries. -/
def send_user_list (route : RouteOracle) (target : User)
    (users : List User) : Bool × User × List User :=
  let t1 := user_flag_set target
  let r := send_list_loop route users t1.send_queue_size
  let t2 := { t1 with send_queue_size := r.2.2 }
  let t3 := if t2.send_queue_size = 0 then user_flag_unset t2 else t2
  (r.1, t3, r.2.1)

/-- One argument of the IQUI broadcast message: the leaving session's
identifier (`sid_to_string(leaving->id.sid)`) or the forced-disconnect
flag `ADC_QUI_FLAG_DISCONNECT`. -/
inductive QuitArg where
  | sidArg (sid : Nat)
  | disconnectFlag
deriving DecidableEq, Repr

/-- The argument list of the IQUI message built by `send_quit_message`:
the leaving session's SID, plus the forced-disconnect flag when
`quit_reason` is `quit_banned` or `quit_kicked`. -/
def quit_payload (leaving : User) : List QuitArg :=
  let cmd := [QuitArg.sidArg leaving.sid]
  if leaving.quit_reason = QuitReason.banned
      ∨ leaving.quit_reason = QuitReason.kicked then
    cmd ++ [QuitArg.disconnectFlag]
  else
    cmd

/-- `send_quit_message(leaving)`: construct the IQUI message, hand it to
`route_to_all` once, then free it.  The result is the list of payloads
passed to the all-broadcast primitive, in order. -/
def send_quit_message (leaving : User) : List (List QuitArg) :=
  [quit_payload leaving]

/-! ## Shutdown (`user_manager_shutdown`, `clear_user_list_callback`) -/

/-- `clear_user_list_callback`: mark the user as already disconnected by
setting `credentials = cred_none`, then call `user_destroy` on it.  The
value returned here is the session state passed to `user_destroy`. -/
def clear_user_list_callback (u : User) : User :=
  { u with credentials := Credentials.cred_none }

/-- The observable outcome of `user_manager_shutdown`. -/
structure ShutdownResult where
  timer_cancelled : Bool
  destroyed : List User
  remaining : List User
deriving DecidableEq, Repr

/-- `user_manager_shutdown`: cancel the statistics timer (`event_del`),
then `list_clear` runs `clear_user_list_callback` once on every session
still in the membership list (so each is destroyed exactly once, with
`credentials = cred_none` set first) and empties the list, which is then
released.  `destroyed` records, in order, the session states passed to
`user_destroy`. -/
def user_manager_shutdown (um : UserManager) : ShutdownResult :=
  { timer_cancelled := true
    destroyed := um.list.map clear_user_list_callback
    remaining := [] }

/-- `user_manager_get_free_sid` called `n` times in sequence: the list of
returned SIDs together with the final registry state. -/
def allocSeq : Nat → UserManager → List Nat × UserManager
  | 0, um => ([], um)
  | n + 1, um =>
    let r := user_manager_get_free_sid um
    let k := allocSeq n r.2
    (r.1 :: k.1, k.2)

end UHub

namespace UHub

lemma allocSeq_eq (n : Nat) : ∀ um : UserManager,
    (allocSeq n um).1 = List.range' um.free_sid n ∧
    (allocSeq n um).2.free_sid = um.free_sid + n := by
  induction n with
  | zero => intro um; simp [allocSeq]
  | succ n ih =>
    intro um
    have h := ih { um with free_sid := um.free_sid + 1 }
    simp only [allocSeq, user_manager_get_free_sid] at *
    refine ⟨?_, ?_⟩
    · rw [h.1, List.range'_succ]
    · rw [h.2]; omega

/-- C3: from a freshly initialized registry, `n` successive calls of
`user_manager_get_free_sid` return the strictly increasing, pairwise
distinct values `1, 2, ..., n` (the list `range' 1 n`), and the counter
is post-incremented to `n + 1`; no collision check against live SIDs and
no wraparound occurs. -/
theorem get_free_sid_sequence (n : Nat) :
    (allocSeq n user_manager_init).1 = List.range' 1 n ∧
    (allocSeq n user_manager_init).1.Pairwise (· < ·) ∧
    (allocSeq n user_manager_init).1.Nodup ∧
    (allocSeq n user_manager_init).1.length = n ∧
    (allocSeq n user_manager_init).2.free_sid = n + 1 := by
  have h := allocSeq_eq n user_manager_init
  have hinit : user_manager_init.free_sid = 1 := rfl
  rw [hinit] at h
  have hpw : (List.range' 1 n).Pairwise (· < ·) := by
    rw [List.pairwise_iff_get]
    intro i j hij
    simp only [List.get_eq_getElem, List.getElem_range'_1]
    omega
  refine ⟨h.1, ?_, ?_, ?_, ?_⟩
  · rw [h.1]; exact hpw
  · rw [h.1]; exact hpw.nodup
  · rw [h.1]; simp
  · rw [h.2]; omega

/-- C9: on the empty registry all three lookups return `NULL`; after a
session is added its exact sid/cid/nick each find that exact session;
after it is removed again all three lookups return `NULL` again. -/
theorem lookups_roundtrip (u : User) :
    (get_user_by_sid user_manager_init u.sid = none ∧
     get_user_by_cid user_manager_init u.cid = none ∧
     get_user_by_nick user_manager_init u.nick = none) ∧
    (get_user_by_sid (user_manager_add user_manager_init u) u.sid = some u ∧
     get_user_by_cid (user_manager_add user_manager_init u) u.cid = some u ∧
     get_user_by_nick (user_manager_add user_manager_init u) u.nick = some u) ∧
    (get_user_by_sid
        (user_manager_remove (user_manager_add user_manager_init u) u) u.sid
        = none ∧
     get_user_by_cid
        (user_manager_remove (user_manager_add user_manager_init u) u) u.cid
        = none ∧
     get_user_by_nick
        (user_manager_remove (user_manager_add user_manager_init u) u) u.nick
        = none) := by
  simp [get_user_by_sid, get_user_by_cid, get_user_by_nick,
    user_manager_init, user_manager_add, user_manager_remove]

/-- C6: `user_manager_update_stats` never writes `net_rx_peak` (it is
unchanged by every call), and because the transmit-peak field is assigned
twice, the final `net_tx_peak` is `max` of the fresh receive rate and the
old receive peak. -/
theorem update_stats_rx_peak_frame (stats : HubStats)
    (inter total : NetStatistics) :
    (user_manager_update_stats stats inter total).1.net_rx_peak
      = stats.net_rx_peak ∧
    (user_manager_update_stats stats inter total).1.net_tx_peak
      = max (inter.rx / TIMEOUT_STATS) stats.net_rx_peak := by
  simp [user_manager_update_stats]

/-- C2 (bug evidence): on the spec's own scenario — all-zero statistics,
interval counters tx=5120, rx=1024, interval 5s — the code computes rates
tx=1024, rx=204 and resets the collector (so an immediate resample
reports rate 0 both ways), but it leaves `net_rx_peak` at 0 instead of
raising it to 204, and sets `net_tx_peak` to 204 (max of the rx rate and
the old rx peak) instead of 1024. -/
theorem update_stats_peak_bug :
    (user_manager_update_stats ⟨0, 0, 0, 0, 0, 0⟩ ⟨5120, 1024⟩
        ⟨5120, 1024⟩).1.net_tx = 1024 ∧
    (user_manager_update_stats ⟨0, 0, 0, 0, 0, 0⟩ ⟨5120, 1024⟩
        ⟨5120, 1024⟩).1.net_rx = 204 ∧
    (user_manager_update_stats ⟨0, 0, 0, 0, 0, 0⟩ ⟨5120, 1024⟩
        ⟨5120, 1024⟩).1.net_rx_peak = 0 ∧
    (user_manager_update_stats ⟨0, 0, 0, 0, 0, 0⟩ ⟨5120, 1024⟩
        ⟨5120, 1024⟩).1.net_tx_peak = 204 ∧
    (user_manager_update_stats ⟨0, 0, 0, 0, 0, 0⟩ ⟨5120, 1024⟩
        ⟨5120, 1024⟩).2.1 = ⟨0, 0⟩ ∧
    (user_manager_update_stats
      (user_manager_update_stats ⟨0, 0, 0, 0, 0, 0⟩ ⟨5120, 1024⟩
        ⟨5120, 1024⟩).1
      (user_manager_update_stats ⟨0, 0, 0, 0, 0, 0⟩ ⟨5120, 1024⟩
        ⟨5120, 1024⟩).2.1
      (user_manager_update_stats ⟨0, 0, 0, 0, 0, 0⟩ ⟨5120, 1024⟩
        ⟨5120, 1024⟩).2.2).1.net_tx = 0 ∧
    (user_manager_update_stats
      (user_manager_update_stats ⟨0, 0, 0, 0, 0, 0⟩ ⟨5120, 1024⟩
        ⟨5120, 1024⟩).1
      (user_manager_update_stats ⟨0, 0, 0, 0, 0, 0⟩ ⟨5120, 1024⟩
        ⟨5120, 1024⟩).2.1
      (user_manager_update_stats ⟨0, 0, 0, 0, 0, 0⟩ ⟨5120, 1024⟩
        ⟨5120, 1024⟩).2.2).1.net_rx = 0 := by
  decide

/-- C7: the IQUI broadcast built by `send_quit_message` carries the
leaving session's SID, carries the forced-disconnect flag exactly when
`quit_reason` is `banned` or `kicked`, and is handed to the all-broadcast
primitive exactly once. -/
theorem send_quit_message_payload (u : User) :
    send_quit_message u = [quit_payload u] ∧
    (QuitArg.disconnectFlag ∈ quit_payload u ↔
      u.quit_reason = QuitReason.banned ∨
      u.quit_reason = QuitReason.kicked) ∧
    QuitArg.sidArg u.sid ∈ quit_payload u := by
  refine ⟨rfl, ?_, ?_⟩ <;>
    cases h : u.quit_reason <;> simp [quit_payload, h]

/-! ## Concrete sessions used for counterexamples and witnesses -/

/-- A concrete session (sid 1). -/
def uA : User :=
  ⟨1, "AAAA", "alice", Credentials.cred_user, 100, 10,
    QuitReason.normal, true, false, 0⟩

/-- A concrete session (sid 2), never added in the scenarios that use
it as an absent session. -/
def uB : User :=
  ⟨2, "BBBB", "bob", Credentials.cred_user, 0, 0,
    QuitReason.normal, true, false, 0⟩

/-- A concrete session (sid 3). -/
def uC : User :=
  ⟨3, "CCCC", "carol", Credentials.cred_guest, 7, 2,
    QuitReason.normal, false, false, 0⟩

/-- C4 (counterexample): removing a session that is absent from the
membership list is not a no-op — on a registry holding only `uA`
(count 1), `user_manager_remove uB` changes `count` to 0 even though `uB`
is not in the list. -/
theorem remove_absent_changes_count :
    uB ∉ (user_manager_add user_manager_init uA).list ∧
    (user_manager_add user_manager_init uA).count = 1 ∧
    (user_manager_remove (user_manager_add user_manager_init uA) uB).count
      = 0 := by
  refine ⟨?_, rfl, rfl⟩
  simp [user_manager_add, user_manager_init, uA, uB]

/-- C4 (amended): removing an absent session leaves the membership list
unchanged, but still decrements `count` and still subtracts the session's
declared limits from `shared_size` / `shared_files` (all three
unconditionally). -/
theorem remove_absent_effect (um : UserManager) (u : User)
    (h : u ∉ um.list) :
    (user_manager_remove um u).list = um.list ∧
    (user_manager_remove um u).count = um.count - 1 ∧
    (user_manager_remove um u).shared_size
      = um.shared_size - u.shared_size ∧
    (user_manager_remove um u).shared_files
      = um.shared_files - u.shared_files := by
  exact ⟨by simp [user_manager_remove, List.erase_of_not_mem h],
    rfl, rfl, rfl⟩

/-- Witness for the amended C4 at a concrete input. -/
theorem remove_absent_effect_witness :
    uB ∉ (user_manager_add user_manager_init uA).list ∧
    ((user_manager_remove (user_manager_add user_manager_init uA) uB).list
        = (user_manager_add user_manager_init uA).list ∧
     (user_manager_remove (user_manager_add user_manager_init uA) uB).count
        = (user_manager_add user_manager_init uA).count - 1 ∧
     (user_manager_remove (user_manager_add user_manager_init uA)
          uB).shared_size
        = (user_manager_add user_manager_init uA).shared_size
            - uB.shared_size ∧
     (user_manager_remove (user_manager_add user_manager_init uA)
          uB).shared_files
        = (user_manager_add user_manager_init uA).shared_files
            - uB.shared_files) :=
  ⟨by simp [user_manager_add, user_manager_init, uA, uB],
   remove_absent_effect (user_manager_add user_manager_init uA) uB
     (by simp [user_manager_add, user_manager_init, uA, uB])⟩

/-- C8: shutting down a registry holding three sessions with pairwise
distinct SIDs cancels the timer, empties the membership list, and
destroys each of the three sessions exactly once, each with its
credentials forced to `cred_none` before destruction. -/
theorem shutdown_destroys_each_once (u1 u2 u3 : User)
    (h12 : u1.sid ≠ u2.sid) (h13 : u1.sid ≠ u3.sid)
    (h23 : u2.sid ≠ u3.sid) :
    (user_manager_shutdown
        (user_manager_add (user_manager_add
          (user_manager_add user_manager_init u1) u2) u3)).timer_cancelled
      = true ∧
    (user_manager_shutdown
        (user_manager_add (user_manager_add
          (user_manager_add user_manager_init u1) u2) u3)).remaining
      = [] ∧
    (user_manager_shutdown
        (user_manager_add (user_manager_add
          (user_manager_add user_manager_init u1) u2) u3)).destroyed.length
      = 3 ∧
    ((user_manager_shutdown
        (user_manager_add (user_manager_add
          (user_manager_add user_manager_init u1) u2) u3)).destroyed.filter
        (fun v => v.sid == u1.sid))
      = [clear_user_list_callback u1] ∧
    ((user_manager_shutdown
        (user_manager_add (user_manager_add
          (user_manager_add user_manager_init u1) u2) u3)).destroyed.filter
        (fun v => v.sid == u2.sid))
      = [clear_user_list_callback u2] ∧
    ((user_manager_shutdown
        (user_manager_add (user_manager_add
          (user_manager_add user_manager_init u1) u2) u3)).destroyed.filter
        (fun v => v.sid == u3.sid))
      = [clear_user_list_callback u3] ∧
    (clear_user_list_callback u1).credentials = Credentials.cred_none ∧
    (clear_user_list_callback u2).credentials = Credentials.cred_none ∧
    (clear_user_list_callback u3).credentials = Credentials.cred_none := by
  have e21 : (u2.sid == u1.sid) = false :=
    beq_eq_false_iff_ne.mpr (Ne.symm h12)
  have e31 : (u3.sid == u1.sid) = false :=
    beq_eq_false_iff_ne.mpr (Ne.symm h13)
  have e32 : (u3.sid == u2.sid) = false :=
    beq_eq_false_iff_ne.mpr (Ne.symm h23)
  have e12 : (u1.sid == u2.sid) = false := beq_eq_false_iff_ne.mpr h12
  have e13 : (u1.sid == u3.sid) = false := beq_eq_false_iff_ne.mpr h13
  have e23 : (u2.sid == u3.sid) = false := beq_eq_false_iff_ne.mpr h23
  simp [user_manager_shutdown, user_manager_add, user_manager_init,
    clear_user_list_callback, List.filter, e21, e31, e32, e12, e13, e23]

/-- Witness for C8 at three concrete sessions. -/
theorem shutdown_destroys_each_once_witness :
    (uA.sid ≠ uB.sid ∧ uA.sid ≠ uC.sid ∧ uB.sid ≠ uC.sid) ∧
    ((user_manager_shutdown
        (user_manager_add (user_manager_add
          (user_manager_add user_manager_init uA) uB) uC)).timer_cancelled
      = true ∧
    (user_manager_shutdown
        (user_manager_add (user_manager_add
          (user_manager_add user_manager_init uA) uB) uC)).remaining
      = [] ∧
    (user_manager_shutdown
        (user_manager_add (user_manager_add
          (user_manager_add user_manager_init uA) uB) uC)).destroyed.length
      = 3 ∧
    ((user_manager_shutdown
        (user_manager_add (user_manager_add
          (user_manager_add user_manager_init uA) uB) uC)).destroyed.filter
        (fun v => v.sid == uA.sid))
      = [clear_user_list_callback uA] ∧
    ((user_manager_shutdown
        (user_manager_add (user_manager_add
          (user_manager_add user_manager_init uA) uB) uC)).destroyed.filter
        (fun v => v.sid == uB.sid))
      = [clear_user_list_callback uB] ∧
    ((user_manager_shutdown
        (user_manager_add (user_manager_add
          (user_manager_add user_manager_init uA) uB) uC)).destroyed.filter
        (fun v => v.sid == uC.sid))
      = [clear_user_list_callback uC] ∧
    (clear_user_list_callback uA).credentials = Credentials.cred_none ∧
    (clear_user_list_callback uB).credentials = Credentials.cred_none ∧
    (clear_user_list_callback uC).credentials = Credentials.cred_none) :=
  ⟨⟨by decide, by decide, by decide⟩,
   shutdown_destroys_each_once uA uB uC (by decide) (by decide)
     (by decide)⟩

/-! ## Registry invariants over add/remove traces (C1) -/

/-- The aggregate invariant the registry maintains: `count` is the list
length, `count` never exceeds `count_peak`, and the shared totals are
the sums over the list. -/
def RegInv (um : UserManager) : Prop :=
  um.count = um.list.length ∧
  um.count ≤ um.count_peak ∧
  um.shared_size = sharedSizeSum um.list ∧
  um.shared_files = sharedFilesSum um.list

lemma sharedSizeSum_erase {u : User} {l : List User} (h : u ∈ l) :
    sharedSizeSum l = u.shared_size + sharedSizeSum (l.erase u) := by
  have hp := List.perm_cons_erase h
  have := (hp.map User.shared_size).sum_eq
  simpa [sharedSizeSum] using this

lemma sharedFilesSum_erase {u : User} {l : List User} (h : u ∈ l) :
    sharedFilesSum l = u.shared_files + sharedFilesSum (l.erase u) := by
  have hp := List.perm_cons_erase h
  have := (hp.map User.shared_files).sum_eq
  simpa [sharedFilesSum] using this

lemma regInv_add {um : UserManager} (h : RegInv um) (u : User) :
    RegInv (user_manager_add um u) := by
  obtain ⟨hc, hp, hs, hf⟩ := h
  refine ⟨?_, ?_, ?_, ?_⟩
  · simp [user_manager_add, hc]
  · simp [user_manager_add]
  · simp [user_manager_add, sharedSizeSum, hs]
  · simp [user_manager_add, sharedFilesSum, hf]

lemma regInv_remove {um : UserManager} (h : RegInv um) {u : User}
    (hu : u ∈ um.list) : RegInv (user_manager_remove um u) := by
  obtain ⟨hc, hp, hs, hf⟩ := h
  refine ⟨?_, ?_, ?_, ?_⟩
  · simp only [user_manager_remove, List.length_erase_of_mem hu, hc]
  · simp only [user_manager_remove]; omega
  · have := sharedSizeSum_erase hu
    simp only [user_manager_remove]; omega
  · have := sharedFilesSum_erase hu
    simp only [user_manager_remove]; omega

lemma trace_invariant (ops : List Op) : ∀ um : UserManager,
    validTrace um ops = true → RegInv um →
    RegInv (applyTrace um ops) ∧
    (applyTrace um ops).count_peak
      = (countsAfter um ops).foldl max um.count_peak := by
  induction ops with
  | nil => intro um _ hInv; exact ⟨hInv, rfl⟩
  | cons op ops ih =>
    intro um hv hInv
    cases op with
    | add u =>
      have hv' : validTrace (user_manager_add um u) ops = true := by
        simpa [validTrace] using hv
      have hstep := regInv_add hInv u
      have h := ih (user_manager_add um u) hv' hstep
      refine ⟨h.1, ?_⟩
      have hpk : (user_manager_add um u).count_peak
          = max um.count_peak (user_manager_add um u).count := by
        simp [user_manager_add, Nat.max_comm]
      calc (applyTrace um (.add u :: ops)).count_peak
          = (countsAfter (user_manager_add um u) ops).foldl max
              (user_manager_add um u).count_peak := by
            simpa [applyTrace, applyOp] using h.2
        _ = (countsAfter um (.add u :: ops)).foldl max um.count_peak := by
            rw [hpk]; simp [countsAfter, applyOp]
    | remove u =>
      have hv2 := hv
      simp only [validTrace, Bool.and_eq_true] at hv2
      have hmem : u ∈ um.list := by
        have := hv2.1
        simpa [List.contains, List.elem_iff] using this
      have hv' : validTrace (user_manager_remove um u) ops = true := hv2.2
      have hstep := regInv_remove hInv hmem
      have h := ih (user_manager_remove um u) hv' hstep
      refine ⟨h.1, ?_⟩
      have hle : (user_manager_remove um u).count ≤ um.count_peak := by
        have : (user_manager_remove um u).count = um.count - 1 := rfl
        have := hInv.2.1
        omega
      have hpk : (user_manager_remove um u).count_peak
          = max um.count_peak (user_manager_remove um u).count := by
        have : (user_manager_remove um u).count_peak = um.count_peak := rfl
        omega
      calc (applyTrace um (.remove u :: ops)).count_peak
          = (countsAfter (user_manager_remove um u) ops).foldl max
              (user_manager_remove um u).count_peak := by
            simpa [applyTrace, applyOp] using h.2
        _ = (countsAfter um (.remove u :: ops)).foldl max um.count_peak := by
            rw [hpk]; simp [countsAfter, applyOp]

/-- C1: along any valid trace of add/remove operations from a fresh
registry (removals only of currently-registered sessions), `count` is
the number of registered sessions, `count_peak` is the maximum value
`count` has ever taken, and `shared_size` / `shared_files` are the sums
of the registered sessions' declared limits. -/
theorem registry_invariants (ops : List Op)
    (h : validTrace user_manager_init ops = true) :
    (applyTrace user_manager_init ops).count
      = (applyTrace user_manager_init ops).list.length ∧
    (applyTrace user_manager_init ops).count_peak
      = (countsAfter user_manager_init ops).foldl max 0 ∧
    (applyTrace user_manager_init ops).shared_size
      = sharedSizeSum (applyTrace user_manager_init ops).list ∧
    (applyTrace user_manager_init ops).shared_files
      = sharedFilesSum (applyTrace user_manager_init ops).list := by
  have hInv : RegInv user_manager_init := by
    refine ⟨rfl, ?_, rfl, rfl⟩; simp [user_manager_init]
  have h2 := trace_invariant ops user_manager_init h hInv
  exact ⟨h2.1.1, h2.2, h2.1.2.2.1, h2.1.2.2.2⟩

/-- Witness for C1 on a concrete trace: add `uA`, add `uC`,
remove `uA`, add `uB`. -/
theorem registry_invariants_witness :
    validTrace user_manager_init
      [Op.add uA, Op.add uC, Op.remove uA, Op.add uB] = true ∧
    ((applyTrace user_manager_init
        [Op.add uA, Op.add uC, Op.remove uA, Op.add uB]).count
      = (applyTrace user_manager_init
          [Op.add uA, Op.add uC, Op.remove uA, Op.add uB]).list.length ∧
    (applyTrace user_manager_init
        [Op.add uA, Op.add uC, Op.remove uA, Op.add uB]).count_peak
      = (countsAfter user_manager_init
          [Op.add uA, Op.add uC, Op.remove uA, Op.add uB]).foldl max 0 ∧
    (applyTrace user_manager_init
        [Op.add uA, Op.add uC, Op.remove uA, Op.add uB]).shared_size
      = sharedSizeSum (applyTrace user_manager_init
          [Op.add uA, Op.add uC, Op.remove uA, Op.add uB]).list ∧
    (applyTrace user_manager_init
        [Op.add uA, Op.add uC, Op.remove uA, Op.add uB]).shared_files
      = sharedFilesSum (applyTrace user_manager_init
          [Op.add uA, Op.add uC, Op.remove uA, Op.add uB]).list) :=
  ⟨by decide,
   registry_invariants [Op.add uA, Op.add uC, Op.remove uA, Op.add uB]
     (by decide)⟩

/-! ## The user-list delivery loop as the spec describes it (C5, C10) -/

/-- Written from the spec's words, for comparison with `send_list_loop`:
attempt delivery to every session of the (already filtered) logged-in
list in order, stopping immediately after the first delivery failure and
returning that failure; an empty list yields success with no
deliveries. -/
def deliver_each_until_failure (route : RouteOracle) :
    List User → Nat → Bool × List User × Nat
  | [], q => (true, [], q)
  | u :: rest, q =>
    let r := route q u
    if r.1 then
      let k := deliver_each_until_failure route rest r.2
      (k.1, u :: k.2.1, k.2.2)
    else
      (false, [u], r.2)

lemma send_list_loop_eq_filtered (route : RouteOracle) :
    ∀ (users : List User) (q : Nat),
    send_list_loop route users q
      = deliver_each_until_failure route
          (users.filter user_is_logged_in) q := by
  intro users
  induction users with
  | nil => intro q; rfl
  | cons u rest ih =>
    intro q
    cases h : user_is_logged_in u with
    | false => simp [send_list_loop, h, List.filter_cons, ih]
    | true =>
      simp only [send_list_loop, h, List.filter_cons, if_true]
      cases hr : route q u with
      | mk ok q2 =>
        cases ok <;>
          simp [deliver_each_until_failure, hr, ih]

lemma deliver_all_of_ret_true (route : RouteOracle) :
    ∀ (l : List User) (q : Nat),
    (deliver_each_until_failure route l q).1 = true →
    (deliver_each_until_failure route l q).2.1 = l := by
  intro l
  induction l with
  | nil => intro q _; rfl
  | cons u rest ih =>
    intro q h
    cases hr : route q u with
    | mk ok q2 =>
      cases ok with
      | false => simp [deliver_each_until_failure, hr] at h
      | true =>
        simp only [deliver_each_until_failure, hr, if_true] at h ⊢
        simpa using ih q2 (by simpa using h)

/-- C5: the delivery part of `send_user_list` behaves exactly as the
spec describes — it attempts delivery to precisely the logged-in
sessions, in registry insertion order, stopping immediately after the
first failure and returning that failure (this is the content of the
equality with `deliver_each_until_failure` on the filtered list); when it
returns success it delivered to every logged-in session exactly once, and
with zero logged-in sessions it delivers nothing and returns success. -/
theorem send_user_list_deliveries (route : RouteOracle) (target : User)
    (users : List User) :
    (send_user_list route target users).1
      = (deliver_each_until_failure route
          (users.filter user_is_logged_in) target.send_queue_size).1 ∧
    (send_user_list route target users).2.2
      = (deliver_each_until_failure route
          (users.filter user_is_logged_in) target.send_queue_size).2.1 ∧
    ((send_user_list route target users).1 = true →
      (send_user_list route target users).2.2
        = users.filter user_is_logged_in) ∧
    (users.filter user_is_logged_in = [] →
      (send_user_list route target users).1 = true ∧
      (send_user_list route target users).2.2 = []) := by
  have hq : (user_flag_set target).send_queue_size
      = target.send_queue_size := rfl
  have hloop := send_list_loop_eq_filtered route users
    target.send_queue_size
  refine ⟨?_, ?_, ?_, ?_⟩
  · simp only [send_user_list, hq, hloop]
  · simp only [send_user_list, hq, hloop]
  · intro h
    simp only [send_user_list, hq, hloop] at h ⊢
    exact deliver_all_of_ret_true route (users.filter user_is_logged_in)
      target.send_queue_size h
  · intro h
    simp [send_user_list, hq, hloop, h, deliver_each_until_failure]

/-- Witness for C5: concrete target `uA` with an empty queue, two
registered sessions (`uA` logged in, `uC` not), and a route oracle that
always succeeds and adds 4 bytes to the queue. -/
theorem send_user_list_deliveries_witness :
    (send_user_list (fun q _ => (true, q + 4)) uA [uA, uC]).1
      = (deliver_each_until_failure (fun q _ => (true, q + 4))
          ([uA, uC].filter user_is_logged_in) uA.send_queue_size).1 ∧
    (send_user_list (fun q _ => (true, q + 4)) uA [uA, uC]).2.2
      = (deliver_each_until_failure (fun q _ => (true, q + 4))
          ([uA, uC].filter user_is_logged_in) uA.send_queue_size).2.1 ∧
    ((send_user_list (fun q _ => (true, q + 4)) uA [uA, uC]).1 = true →
      (send_user_list (fun q _ => (true, q + 4)) uA [uA, uC]).2.2
        = [uA, uC].filter user_is_logged_in) ∧
    ([uA, uC].filter user_is_logged_in = [] →
      (send_user_list (fun q _ => (true, q + 4)) uA [uA, uC]).1 = true ∧
      (send_user_list (fun q _ => (true, q + 4)) uA [uA, uC]).2.2 = []) :=
  send_user_list_deliveries (fun q _ => (true, q + 4)) uA [uA, uC]

/-- C10: `send_user_list` sets the target's `flag_user_list` flag at the
start, and after the loop the flag ends up cleared exactly when the
target's outstanding send-queue size is zero; when the queue is nonzero
the flag is left set. -/
theorem send_user_list_flag (route : RouteOracle) (target : User)
    (users : List User) :
    ((send_user_list route target users).2.1.flag_user_list = false ↔
      (send_user_list route target users).2.1.send_queue_size = 0) ∧
    ((send_user_list route target users).2.1.send_queue_size ≠ 0 →
      (send_user_list route target users).2.1.flag_user_list = true) := by
  simp only [send_user_list, user_flag_set, user_flag_unset]
  split <;> rename_i h <;> simp_all

/-- Witness for C10: a route oracle that fails at once and leaves 7
bytes queued; the flag stays set because the queue is nonzero. -/
theorem send_user_list_flag_witness :
    ((send_user_list (fun _ _ => (false, 7)) uA [uA, uC]).2.1.flag_user_list
        = false ↔
      (send_user_list (fun _ _ => (false, 7)) uA
          [uA, uC]).2.1.send_queue_size = 0) ∧
    ((send_user_list (fun _ _ => (false, 7)) uA
        [uA, uC]).2.1.send_queue_size ≠ 0 →
      (send_user_list (fun _ _ => (false, 7)) uA
          [uA, uC]).2.1.flag_user_list = true) :=
  send_user_list_flag (fun _ _ => (false, 7)) uA [uA, uC]

end UHub
